import Mathlib

/-!
Verification of the task-execution engine of the sxbot messaging dispatcher
(`bot.py`) against its natural-language specification.

Each section shallowly embeds one portion of the Python source as executable
Lean definitions (Mongo updates become pure state transformations, asyncio
cooperative concurrency becomes explicit interleaving of atomic blocks,
time-varying shared state becomes oracle functions indexed by suspension
points) and proves or refutes the spec's claims about it.
-/

namespace SxBot

/-- Task status values (`TaskStatus` enum in `bot.py`). -/
inductive TaskStatus
| pending
| running
| paused
| stopped
| completed
| failed
deriving DecidableEq

/-- Account status values (`AccountStatus` enum in `bot.py`). -/
inductive AccountStatus
| active
| limited
| banned
| inactive
deriving DecidableEq

/-- Account type strings used in the accounts collection
(`account_type` field: `'messaging'` or `'collection'`). -/
inductive AccountType
| messaging
| collection
deriving DecidableEq

/-! ## Interruptible clock: `TaskManager._sleep_with_stop_check`

The Python loop sleeps `int(seconds)` one-second ticks.  Before tick `i`
it checks the in-memory stop event and, when `i % 5 == 0` and a task id
was supplied, re-reads the persisted task document and bails out when its
status equals `'stopped'`.  Afterwards the fractional remainder is slept
unless the stop event is set, and the final stop-event value is returned.

Shared state that other coroutines may mutate (the stop event, the
persisted task document) is modelled as oracles indexed by the number of
completed one-second ticks, the only suspension points of the loop. -/

/-- Environment of one `_sleep_with_stop_check` call: `stopAt i` is the
value of `stop_event.is_set()` observed after `i` completed ticks,
`dbEnabled` is whether a `task_id` was supplied, `dbStatusAt i` is the
persisted task status read after `i` ticks (`none` when the task document
is missing), and `stopAfterFrac` is the stop-event value observed after
the fractional sleep. -/
structure SleepEnv where
  stopAt : Nat → Bool
  dbEnabled : Bool
  dbStatusAt : Nat → Option TaskStatus
  stopAfterFrac : Bool

/-- The condition under which iteration `i` of the tick loop returns early:
stop event set, or (every 5th tick) persisted status equal to `stopped`. -/
def interruptTick (env : SleepEnv) (i : Nat) : Bool :=
  env.stopAt i ||
    (env.dbEnabled && i % 5 == 0 && (env.dbStatusAt i == some TaskStatus.stopped))

/-- The `for i in range(int(seconds))` loop: returns `some i` when iteration
`i` interrupts, `none` when all ticks complete.  `fuel` is the number of
remaining iterations, `i` the current iteration index. -/
def sleepLoop (env : SleepEnv) : Nat → Nat → Option Nat
| 0, _ => none
| fuel + 1, i => if interruptTick env i then some i else sleepLoop env fuel (i + 1)

/-- `TaskManager._sleep_with_stop_check(seconds, stop_event, task_id)`.
`whole = int(seconds)` and `hasFrac` records whether `seconds - int(seconds) > 0`.
Returns (was-interrupted, number of completed whole ticks). -/
def sleepWithStopCheck (env : SleepEnv) (whole : Nat) (hasFrac : Bool) : Bool × Nat :=
  match sleepLoop env whole 0 with
  | some i => (true, i)
  | none =>
    if hasFrac && !env.stopAt whole then (env.stopAfterFrac, whole)
    else (env.stopAt whole, whole)

/-! ## Account health probe: `check_account_real_status` -/

/-- Result type of `check_account_real_status`. -/
inductive ProbeStatus
| active
| limited
| banned
| unknown
deriving DecidableEq

/-- What the spambot probe produced: a reply text, an empty message list,
a transport exception, or an `asyncio.TimeoutError`. -/
inductive ProbeResult
| reply (txt : String)
| noReply
| transportError
| timeoutError
deriving DecidableEq

/-- Character-list version of `String.startsWith`. -/
def startsWithChars : List Char → List Char → Bool
| [], _ => true
| _ :: _, [] => false
| c :: cs, d :: ds => c == d && startsWithChars cs ds

/-- Does `needle` occur as a contiguous run inside the second list? -/
def hasSubChars (needle : List Char) : List Char → Bool
| [] => startsWithChars needle []
| d :: ds => startsWithChars needle (d :: ds) || hasSubChars needle ds

/-- Python `needle in hay` on strings, on their character lists. -/
def containsSub (hay needle : String) : Bool :=
  hasSubChars needle.toList hay.toList

/-- Python `str.lower()`, character by character. -/
def lowerChars (l : List Char) : List Char :=
  l.map Char.toLower

/-- Keyword classification inside `check_account_real_status`: the reply is
lowercased, then matched against the banned keyword list and, failing that,
the limited keyword list; otherwise the account counts as active. -/
def classifyRealReply (txt : String) : ProbeStatus :=
  let r := lowerChars txt.toList
  if ["banned", "ban", "spam", "block", "封禁", "禁止"].any
      (fun k => hasSubChars k.toList r) then
    ProbeStatus.banned
  else if ["限制", "limit", "restrict", "frozen", "冻结"].any
      (fun k => hasSubChars k.toList r) then
    ProbeStatus.limited
  else
    ProbeStatus.active

/-- `check_account_real_status(account_manager, account_id)`: a fresh cache
entry is returned as-is; otherwise the probe result is classified.  An empty
message list returns `'unknown'`, and both the timeout handler and the
generic exception handler return `'unknown'`. -/
def checkAccountRealStatus (cached : Option ProbeStatus) (probe : ProbeResult) :
    ProbeStatus :=
  match cached with
  | some s => s
  | none =>
    match probe with
    | ProbeResult.reply txt => classifyRealReply txt
    | ProbeResult.noReply => ProbeStatus.unknown
    | ProbeResult.transportError => ProbeStatus.unknown
    | ProbeResult.timeoutError => ProbeStatus.unknown

/-! ## Lemmas about the tick loop -/

/-- When the tick loop interrupts at index `j`, then `j` lies in the scanned
range, iteration `j` satisfies the interrupt condition, and no earlier scanned
iteration does. -/
theorem sleepLoop_eq_some (env : SleepEnv) :
    ∀ fuel i j, sleepLoop env fuel i = some j →
      i ≤ j ∧ j < i + fuel ∧ interruptTick env j = true ∧
        ∀ k, i ≤ k → k < j → interruptTick env k = false := by
  intro fuel
  induction fuel with
  | zero => intro i j h; simp [sleepLoop] at h
  | succ n ih =>
    intro i j h
    by_cases hi : interruptTick env i = true
    · simp [sleepLoop, hi] at h
      subst h
      exact ⟨le_refl i, by omega, hi, fun k hk hk2 => absurd hk (by omega)⟩
    · simp only [sleepLoop, hi, if_false, Bool.not_eq_true] at h
      obtain ⟨h1, h2, h3, h4⟩ := ih (i + 1) j h
      refine ⟨by omega, by omega, h3, fun k hk hk2 => ?_⟩
      rcases Nat.eq_or_lt_of_le hk with rfl | hlt
      · simpa using hi
      · exact h4 k hlt hk2

/-- When the tick loop completes without interrupting, no scanned iteration
satisfies the interrupt condition. -/
theorem sleepLoop_eq_none (env : SleepEnv) :
    ∀ fuel i, sleepLoop env fuel i = none →
      ∀ k, i ≤ k → k < i + fuel → interruptTick env k = false := by
  intro fuel
  induction fuel with
  | zero => intro i _ k hk hk2; omega
  | succ n ih =>
    intro i h k hk hk2
    by_cases hi : interruptTick env i = true
    · simp [sleepLoop, hi] at h
    · simp only [sleepLoop, hi, if_false] at h
      rcases Nat.eq_or_lt_of_le hk with rfl | hlt
      · simpa using hi
      · exact ih (i + 1) h k hlt (by omega)

/-- Claim C3 (amended): `_sleep_with_stop_check` decomposes the sleep into
1-second ticks and returns `true` at the first tick where the stop signal is
set or — on every 5th tick when a task id is supplied — where the persisted
task status equals `'stopped'` (not merely "no longer running"); when no tick
interrupts, all whole ticks elapse and the remaining fractional part is slept
unless the stop signal is already set, the final stop-event value being
returned. -/
theorem c3_sleep_with_stop_check_first_interrupt (env : SleepEnv) (whole : Nat)
    (hasFrac : Bool) :
    (sleepWithStopCheck env whole hasFrac).2 ≤ whole ∧
    (∀ j, j < (sleepWithStopCheck env whole hasFrac).2 → interruptTick env j = false) ∧
    ((sleepWithStopCheck env whole hasFrac).2 < whole →
      (sleepWithStopCheck env whole hasFrac).1 = true ∧
      interruptTick env (sleepWithStopCheck env whole hasFrac).2 = true) ∧
    ((sleepWithStopCheck env whole hasFrac).2 = whole →
      (sleepWithStopCheck env whole hasFrac).1 =
        (if hasFrac && !env.stopAt whole then env.stopAfterFrac
         else env.stopAt whole)) := by
  cases h : sleepLoop env whole 0 with
  | some i =>
    obtain ⟨-, h2, h3, h4⟩ := sleepLoop_eq_some env whole 0 i h
    simp only [sleepWithStopCheck, h]
    refine ⟨by omega, ?_, ?_, ?_⟩
    · intro j hj; exact h4 j (Nat.zero_le j) hj
    · intro _; exact ⟨trivial, h3⟩
    · intro hcontra; omega
  | none =>
    have hall := sleepLoop_eq_none env whole 0 h
    simp only [sleepWithStopCheck, h]
    have hsnd : ((if (hasFrac && !env.stopAt whole) = true then (env.stopAfterFrac, whole)
        else (env.stopAt whole, whole)) : Bool × Nat).2 = whole := by
      split <;> rfl
    have hfst : ((if (hasFrac && !env.stopAt whole) = true then (env.stopAfterFrac, whole)
        else (env.stopAt whole, whole)) : Bool × Nat).1 =
        (if (hasFrac && !env.stopAt whole) = true then env.stopAfterFrac
         else env.stopAt whole) := by
      split <;> rfl
    rw [hsnd, hfst]
    refine ⟨le_refl whole, ?_, ?_, fun _ => rfl⟩
    · intro j hj; exact hall j (Nat.zero_le j) (by omega)
    · intro hcontra; omega

/-- Environment used by the witness below: the stop signal becomes set after
two completed ticks; no task id is supplied. -/
def sleepEnvStopAt2 : SleepEnv :=
  ⟨fun i => decide (2 ≤ i), false, fun _ => none, false⟩

/-- Witness for C3's theorem at a concrete input: a 4-second sleep with the
stop signal raised after 2 ticks is interrupted at tick 2. -/
theorem c3_sleep_with_stop_check_first_interrupt_witness :
    sleepWithStopCheck sleepEnvStopAt2 4 false = (true, 2) ∧
    ((sleepWithStopCheck sleepEnvStopAt2 4 false).1 = true ∧
      interruptTick sleepEnvStopAt2 (sleepWithStopCheck sleepEnvStopAt2 4 false).2 = true) :=
  ⟨by decide, (c3_sleep_with_stop_check_first_interrupt sleepEnvStopAt2 4 false).2.2.1
    (by decide)⟩

/-- Environment refuting C3 as stated: no stop signal, task id supplied, and
the persisted task status is `'completed'` — a status that is "no longer
running" — at every database check. -/
def sleepEnvCompleted : SleepEnv :=
  ⟨fun _ => false, true, fun _ => some TaskStatus.completed, false⟩

/-- Counterexample to claim C3 as stated: with the persisted status equal to
`'completed'` (hence no longer `'running'`) at every 5th-tick database check,
the claim says the sleep returns `true`, but the code only compares against
`'stopped'` and sleeps all 6 ticks, returning `false`. -/
theorem c3_counterexample_completed_status_does_not_interrupt :
    sleepEnvCompleted.dbStatusAt 0 = some TaskStatus.completed ∧
    some TaskStatus.completed ≠ some TaskStatus.running ∧
    sleepWithStopCheck sleepEnvCompleted 6 false = (false, 6) := by
  refine ⟨rfl, by decide, by decide⟩

/-- Claim C7 (amended): when the spambot gives no reply at all,
`check_account_real_status` returns `'unknown'` (not `'banned'`), and any
transport exception or timeout during the probe likewise yields `'unknown'`;
a `'banned'` verdict can only come from a fresh cache entry or from a reply
text matching a ban keyword.  (The batch sweep `check_all_accounts_status`
is the function that marks such accounts banned.) -/
theorem c7_probe_failure_returns_unknown :
    checkAccountRealStatus none ProbeResult.noReply = ProbeStatus.unknown ∧
    checkAccountRealStatus none ProbeResult.transportError = ProbeStatus.unknown ∧
    checkAccountRealStatus none ProbeResult.timeoutError = ProbeStatus.unknown ∧
    (∀ c p, checkAccountRealStatus c p = ProbeStatus.banned →
      c = some ProbeStatus.banned ∨
        ∃ txt, p = ProbeResult.reply txt ∧ classifyRealReply txt = ProbeStatus.banned) := by
  refine ⟨rfl, rfl, rfl, ?_⟩
  intro c p h
  cases c with
  | some s =>
    left
    cases s <;> simp_all [checkAccountRealStatus]
  | none =>
    right
    cases p with
    | reply txt => exact ⟨txt, rfl, h⟩
    | noReply => simp [checkAccountRealStatus] at h
    | transportError => simp [checkAccountRealStatus] at h
    | timeoutError => simp [checkAccountRealStatus] at h

/-- Witness for C7's theorem at a concrete input: a reply containing the word
"banned" classifies as banned, and the final conjunct applied to it yields
the reply-based explanation. -/
theorem c7_probe_failure_returns_unknown_witness :
    checkAccountRealStatus none (ProbeResult.reply "You are banned") = ProbeStatus.banned ∧
    (some ProbeStatus.banned = some ProbeStatus.banned ∨
      ∃ txt, ProbeResult.reply "You are banned" = ProbeResult.reply txt ∧
        classifyRealReply txt = ProbeStatus.banned) := by
  have h : checkAccountRealStatus none (ProbeResult.reply "You are banned") =
      ProbeStatus.banned := by decide
  exact ⟨h, (c7_probe_failure_returns_unknown.2.2.2
    none (ProbeResult.reply "You are banned") h).imp (fun _ => rfl) id⟩

/-- Counterexample to claim C7 as stated: the claim says no reply at all, or
any transport exception during the probe, makes `check_real_status` return
`'banned'`; the code's `if not messages` branch and both exception handlers
return `'unknown'` instead. -/
theorem c7_counterexample_probe_failure_not_banned :
    checkAccountRealStatus none ProbeResult.noReply ≠ ProbeStatus.banned ∧
    checkAccountRealStatus none ProbeResult.transportError ≠ ProbeStatus.banned ∧
    checkAccountRealStatus none ProbeResult.timeoutError ≠ ProbeStatus.banned := by
  decide

/-! ## Cross-mode safety valve: `check_and_stop_if_no_accounts`

The spec describes `should_stop_task_due_to_accounts` (module level,
`bot.py` lines 422–458), which counts `active` accounts of type
`'messaging'` and marks the task `'stopped'`.  The valve that the three
mode loops actually invoke is `TaskManager.check_and_stop_if_no_accounts`,
which tests for *any* `active` account regardless of account type (via
`check_accounts_availability`) and marks the task `'failed'`. -/

/-- One document of the accounts collection, as far as the safety valve
reads it. -/
structure AccountDoc where
  status : AccountStatus
  accountType : AccountType
deriving DecidableEq

/-- The slice of database state the safety valve touches: the accounts
collection and the task's status and error-message fields. -/
structure ValveDB where
  accounts : List AccountDoc
  taskStatus : TaskStatus
  errorSet : Bool
deriving DecidableEq

/-- `should_stop_task_due_to_accounts(db, task_id)`: counts accounts with
`status == 'active'` and `account_type == 'messaging'`; when the count is
zero, sets the task status to `'stopped'` and returns `true` with a reason.
This function has no callers in `bot.py`. -/
def shouldStopTaskDueToAccounts (db : ValveDB) : ValveDB × Bool :=
  let activeCount :=
    (db.accounts.filter (fun a =>
      decide (a.status = AccountStatus.active) &&
      decide (a.accountType = AccountType.messaging))).length
  if activeCount = 0 then
    ({ db with taskStatus := TaskStatus.stopped }, true)
  else
    (db, false)

/-- `TaskManager.check_accounts_availability()`: `find_one` on
`status == 'active'` with no account-type filter. -/
def checkAccountsAvailability (db : ValveDB) : Bool :=
  db.accounts.any (fun a => decide (a.status = AccountStatus.active))

/-- `TaskManager.check_and_stop_if_no_accounts(task_id)`.  `cached` models a
fresh entry of the 30-second `_account_check_cache` (returned without any
database work); on a cache miss, the valve marks the task `'failed'` with a
detailed error message when no active account exists. -/
def checkAndStopIfNoAccounts (db : ValveDB) (cached : Option Bool) : ValveDB × Bool :=
  match cached with
  | some r => (db, r)
  | none =>
    if !checkAccountsAvailability db then
      ({ db with taskStatus := TaskStatus.failed, errorSet := true }, true)
    else
      (db, false)

/-- Claim C5 (amended): the safety valve that every mode's main loop actually
invokes, `check_and_stop_if_no_accounts`, checks for *any* active account
(regardless of account type) and, when none exists, marks the task `'failed'`
(not `'stopped'`) with an explanatory reason and returns `true`; otherwise it
returns `false` and leaves the task untouched.  The separate
`should_stop_task_due_to_accounts` counts active *messaging* accounts and
marks the task `'stopped'`, but no mode loop calls it. -/
theorem c5_check_and_stop_marks_failed (db : ValveDB) :
    ((¬ ∃ a ∈ db.accounts, a.status = AccountStatus.active) →
      checkAndStopIfNoAccounts db none =
        ({ db with taskStatus := TaskStatus.failed, errorSet := true }, true)) ∧
    ((∃ a ∈ db.accounts, a.status = AccountStatus.active) →
      checkAndStopIfNoAccounts db none = (db, false)) ∧
    ((¬ ∃ a ∈ db.accounts,
        a.status = AccountStatus.active ∧ a.accountType = AccountType.messaging) →
      shouldStopTaskDueToAccounts db =
        ({ db with taskStatus := TaskStatus.stopped }, true)) := by
  have havail : checkAccountsAvailability db = true ↔
      ∃ a ∈ db.accounts, a.status = AccountStatus.active := by
    simp [checkAccountsAvailability, List.any_eq_true]
  refine ⟨?_, ?_, ?_⟩
  · intro hno
    have h1 : checkAccountsAvailability db = false := by
      rcases Bool.eq_false_or_eq_true (checkAccountsAvailability db) with h | h
      · exact absurd (havail.mp h) hno
      · exact h
    simp [checkAndStopIfNoAccounts, h1]
  · intro hyes
    have h1 : checkAccountsAvailability db = true := havail.mpr hyes
    simp [checkAndStopIfNoAccounts, h1]
  · intro hno
    have h1 : (db.accounts.filter (fun a =>
        decide (a.status = AccountStatus.active) &&
        decide (a.accountType = AccountType.messaging))).length = 0 := by
      rw [List.length_eq_zero, List.filter_eq_nil_iff]
      intro a ha
      simp only [Bool.and_eq_true, decide_eq_true_eq]
      intro hcontra
      exact hno ⟨a, ha, hcontra⟩
    simp [shouldStopTaskDueToAccounts, h1]

/-- Witness for C5's theorem: a database whose only account is banned.  The
invoked valve marks the task `'failed'` and returns `true`; the uninvoked
module-level function would have marked it `'stopped'`. -/
theorem c5_check_and_stop_marks_failed_witness :
    checkAndStopIfNoAccounts
        ⟨[⟨AccountStatus.banned, AccountType.messaging⟩], TaskStatus.running, false⟩ none =
      (⟨[⟨AccountStatus.banned, AccountType.messaging⟩], TaskStatus.failed, true⟩, true) ∧
    shouldStopTaskDueToAccounts
        ⟨[⟨AccountStatus.banned, AccountType.messaging⟩], TaskStatus.running, false⟩ =
      (⟨[⟨AccountStatus.banned, AccountType.messaging⟩], TaskStatus.stopped, false⟩, true) :=
  ⟨(c5_check_and_stop_marks_failed _).1 (by decide),
    (c5_check_and_stop_marks_failed _).2.2 (by decide)⟩

/-- Counterexample to claim C5 as stated, in two parts.  First, with a single
active account of type `'collection'`: the claim's count of active
*messaging* accounts is zero, so the valve should stop the task, but the
valve the mode loops invoke sees an active account (it never filters on
account type) and lets the task continue.  Second, with no active account at
all, that valve sets the task status to `'failed'`, not `'stopped'`. -/
theorem c5_counterexample_wrong_filter_and_status :
    (checkAndStopIfNoAccounts
        ⟨[⟨AccountStatus.active, AccountType.collection⟩], TaskStatus.running, false⟩ none =
      (⟨[⟨AccountStatus.active, AccountType.collection⟩], TaskStatus.running, false⟩, false)) ∧
    ((checkAndStopIfNoAccounts
        ⟨[⟨AccountStatus.limited, AccountType.messaging⟩], TaskStatus.running, false⟩ none).1.taskStatus =
      TaskStatus.failed) ∧
    TaskStatus.failed ≠ TaskStatus.stopped := by
  decide

/-! ## Proxy eviction during session acquisition: `AccountManager.get_client`

Both proxy-connection failure handlers (timeout and generic exception) in
`get_client` run the same sequence of Mongo operations: increment the
proxy's `fail_count`, re-read the proxy document, and when the re-read
count has reached 3, clear `proxy_id` on every account referencing the
proxy and delete the proxy document.  `_id` is the collection's primary
key, so the update-one/delete-one by `_id` touch exactly the documents the
pure map/filter below touch. -/

/-- A proxy document: id, cumulative failure count, active flag. -/
structure ProxyRec where
  pid : Nat
  failCount : Nat
  isActive : Bool
deriving DecidableEq

/-- An account document, as far as proxy assignment is concerned. -/
structure ProxyAccount where
  aid : Nat
  proxyId : Option Nat
deriving DecidableEq

/-- The proxies and accounts collections. -/
structure ProxyPool where
  proxies : List ProxyRec
  accounts : List ProxyAccount
deriving DecidableEq

/-- `update_one({'_id': pid}, {'$inc': {'fail_count': 1}})`. -/
def incProxyFail (s : ProxyPool) (pid : Nat) : ProxyPool :=
  { s with proxies := s.proxies.map (fun p =>
      if p.pid = pid then { p with failCount := p.failCount + 1 } else p) }

/-- `find_one({'_id': pid})` on the proxies collection. -/
def findProxyDoc (s : ProxyPool) (pid : Nat) : Option ProxyRec :=
  s.proxies.find? (fun p => decide (p.pid = pid))

/-- The eviction block: `update_many` clearing `proxy_id` on every account
whose `proxy_id` references the proxy (the `$or` in the source only covers
the ObjectId/string representations of the same id), then `delete_one` on
the proxy document. -/
def evictProxy (s : ProxyPool) (pid : Nat) : ProxyPool :=
  { proxies := s.proxies.filter (fun p => decide (p.pid ≠ pid)),
    accounts := s.accounts.map (fun a =>
      if a.proxyId = some pid then { a with proxyId := none } else a) }

/-- The proxy-connection failure handler in `get_client`: record a failure
tick, re-read the document, and evict when the cumulative count reached 3. -/
def recordProxyConnFailure (s : ProxyPool) (pid : Nat) : ProxyPool :=
  let s1 := incProxyFail s pid
  match findProxyDoc s1 pid with
  | some p => if 3 ≤ p.failCount then evictProxy s1 pid else s1
  | none => s1

/-- Claim C9: whenever a proxy's cumulative connection-failure count reaches
3 during session acquisition, the failure handler removes that proxy from
the pool and clears the assignment of every account that references it. -/
theorem c9_proxy_evicted_after_three_failures (s : ProxyPool) (pid : Nat)
    (p : ProxyRec) (hfound : findProxyDoc (incProxyFail s pid) pid = some p)
    (hcnt : 3 ≤ p.failCount) :
    (∀ q ∈ (recordProxyConnFailure s pid).proxies, q.pid ≠ pid) ∧
    (∀ a ∈ (recordProxyConnFailure s pid).accounts, a.proxyId ≠ some pid) := by
  have hrw : recordProxyConnFailure s pid = evictProxy (incProxyFail s pid) pid := by
    simp only [recordProxyConnFailure, hfound, if_pos hcnt]
  rw [hrw]
  constructor
  · intro q hq
    have := (List.mem_filter.mp hq).2
    simpa using this
  · intro a ha
    simp only [evictProxy, List.mem_map] at ha
    obtain ⟨b, -, rfl⟩ := ha
    by_cases hb : b.proxyId = some pid
    · simp [hb]
    · simp [hb]

/-- Witness for C9's theorem: a proxy with two recorded failures suffers a
third during acquisition; afterwards the proxy pool no longer contains it
and both accounts that referenced it are unassigned. -/
theorem c9_proxy_evicted_after_three_failures_witness :
    (∀ q ∈ (recordProxyConnFailure
        ⟨[⟨7, 2, true⟩], [⟨1, some 7⟩, ⟨2, none⟩, ⟨3, some 7⟩]⟩ 7).proxies,
      q.pid ≠ 7) ∧
    (∀ a ∈ (recordProxyConnFailure
        ⟨[⟨7, 2, true⟩], [⟨1, some 7⟩, ⟨2, none⟩, ⟨3, some 7⟩]⟩ 7).accounts,
      a.proxyId ≠ some 7) :=
  c9_proxy_evicted_after_three_failures
    ⟨[⟨7, 2, true⟩], [⟨1, some 7⟩, ⟨2, none⟩, ⟨3, some 7⟩]⟩ 7 ⟨7, 3, true⟩
    (by decide) (by decide)

/-! ## FloodWait handling in `TaskManager._do_send_message`

The `except FloodWaitError` handler re-checks the account's real status and
persists a new account status, then branches on the task's
`flood_wait_strategy`.  The side effects are modelled as an ordered effect
trace. -/

/-- The task's `flood_wait_strategy` values. -/
inductive FwStrategy
| switchAccount
| continueWait
| stopTask
deriving DecidableEq

/-- Observable side effects of the send path. -/
inductive SendEff
| sleepPlain (secs : Nat)
| sleepInterruptible (secs : Nat)
| taskStatusWrite (st : TaskStatus)
| accountStatusWrite (st : AccountStatus)
| transportAttempt (n : Nat)
deriving DecidableEq

/-- The account-status write in the FloodWait handler: `banned` stays
banned, everything else (including an `active` or `unknown` oracle verdict)
is persisted as `limited`. -/
def floodAccountStatus (realStatus : ProbeStatus) : AccountStatus :=
  if realStatus = ProbeStatus.banned then AccountStatus.banned
  else if realStatus = ProbeStatus.limited then AccountStatus.limited
  else AccountStatus.limited

/-- The FloodWait handler of `_do_send_message`: persist the rechecked
account status, then apply the strategy.  `stop-task` writes the task
status `'stopped'` and returns failure; `continue-wait` performs
`await asyncio.sleep(e.seconds)` — a plain sleep — and returns failure;
`switch-account` returns failure immediately. -/
def handleFloodWait (strategy : FwStrategy) (seconds : Nat)
    (realStatus : ProbeStatus) : List SendEff × Bool :=
  let effs := [SendEff.accountStatusWrite (floodAccountStatus realStatus)]
  match strategy with
  | FwStrategy.stopTask => (effs ++ [SendEff.taskStatusWrite TaskStatus.stopped], false)
  | FwStrategy.continueWait => (effs ++ [SendEff.sleepPlain seconds], false)
  | FwStrategy.switchAccount => (effs, false)

/-- Claim C8 (amended): under the `continue-wait` strategy the dispatcher
sleeps the signalled duration with a plain `asyncio.sleep` — not through the
interruptible `_sleep_with_stop_check` — and then reports the attempt as
failed; it performs no interruptible sleep and writes no task status. -/
theorem c8_continue_wait_plain_sleep (seconds : Nat) (realStatus : ProbeStatus) :
    SendEff.sleepPlain seconds ∈ (handleFloodWait FwStrategy.continueWait seconds realStatus).1 ∧
    (∀ n, SendEff.sleepInterruptible n ∉
      (handleFloodWait FwStrategy.continueWait seconds realStatus).1) ∧
    (∀ st, SendEff.taskStatusWrite st ∉
      (handleFloodWait FwStrategy.continueWait seconds realStatus).1) ∧
    (handleFloodWait FwStrategy.continueWait seconds realStatus).2 = false := by
  refine ⟨?_, ?_, ?_, rfl⟩
  · simp [handleFloodWait]
  · intro n; simp [handleFloodWait]
  · intro st; simp [handleFloodWait]

/-- Witness for C8's theorem at a concrete input: a 3600-second FloodWait
with an `active` oracle verdict. -/
theorem c8_continue_wait_plain_sleep_witness :
    SendEff.sleepPlain 3600 ∈
      (handleFloodWait FwStrategy.continueWait 3600 ProbeStatus.active).1 ∧
    SendEff.sleepInterruptible 3600 ∉
      (handleFloodWait FwStrategy.continueWait 3600 ProbeStatus.active).1 :=
  ⟨(c8_continue_wait_plain_sleep 3600 ProbeStatus.active).1,
    (c8_continue_wait_plain_sleep 3600 ProbeStatus.active).2.1 3600⟩

/-- Counterexample to claim C8 as stated: the claim says the signalled
duration is slept via the Interruptible Clock; the handler's trace for a
3600-second FloodWait under `continue-wait` contains a plain sleep and no
interruptible sleep of that duration. -/
theorem c8_counterexample_plain_not_interruptible :
    handleFloodWait FwStrategy.continueWait 3600 ProbeStatus.active =
      ([SendEff.accountStatusWrite AccountStatus.limited,
        SendEff.sleepPlain 3600], false) ∧
    SendEff.sleepInterruptible 3600 ∉
      (handleFloodWait FwStrategy.continueWait 3600 ProbeStatus.active).1 := by
  decide

/-! ## Normal-mode batching: `TaskManager._execute_normal_mode`

The Python code computes `thread_count = min(task.thread_count,
len(accounts))`, `batch_size = max(1, len(targets) // thread_count)`,
slices the target list into consecutive `batch_size`-sized chunks, and then
dispatches only `batches[:thread_count]`, assigning batch `i` the account
`accounts[i % len(accounts)]`. -/

/-- The slicing `[targets[i:i+bs] for i in range(0, len(targets), bs)]`,
with explicit fuel for structural recursion; `l.length` steps always
suffice because every iteration with `k ≥ 1` drops at least one element. -/
def chunkListAux : Nat → List α → Nat → List (List α)
| 0, _, _ => []
| _ + 1, [], _ => []
| fuel + 1, x :: xs, k =>
  if k = 0 then [x :: xs]
  else (x :: xs).take k :: chunkListAux fuel ((x :: xs).drop k) k

/-- The batch slicing of `_execute_normal_mode`. -/
def chunkList (l : List α) (k : Nat) : List (List α) :=
  chunkListAux l.length l k

/-- `_execute_normal_mode`'s dispatch plan: the list of (target batch,
assigned account index) pairs that actually get a `_process_batch_normal_mode`
coroutine.  Only the first `min(threadCount, numAccounts)` chunks are
dispatched. -/
def normalModeDispatch (targets : List α) (threadCount numAccounts : Nat) :
    List (List α × Nat) :=
  let tc := min threadCount numAccounts
  let bs := max 1 (targets.length / tc)
  ((chunkList targets bs).take tc).enum.map (fun ib => (ib.2, ib.1 % numAccounts))

/-- Claim C2 evaluated at the failing input: with 7 pending targets,
`thread_count = 4` and 4 active accounts, the chunk size is
`max(1, 7 // 4) = 1`, producing 7 single-target batches of which only the
first 4 are dispatched (batch `i` to account `i % 4`); targets 4, 5 and 6
belong to no dispatched batch, refuting "every pending target belongs to
exactly one dispatched batch". -/
theorem c2_normal_mode_drops_trailing_targets :
    normalModeDispatch [0, 1, 2, 3, 4, 5, 6] 4 4 =
      [([0], 0), ([1], 1), ([2], 2), ([3], 3)] ∧
    (∀ b ∈ normalModeDispatch [0, 1, 2, 3, 4, 5, 6] 4 4, (4 : Nat) ∉ b.1) ∧
    (4 : Nat) ∈ [0, 1, 2, 3, 4, 5, 6] := by
  decide

/-! ## Retry wrapper: `TaskManager._send_message`

`_send_message` runs `for attempt in range(retry_count + 1)`, sleeping
`retry_interval` seconds with a plain `asyncio.sleep` before every attempt
after the first, and calling `_do_send_message` once per attempt.  It reads
`task.retry_count` unconditionally — there is no `force_private_mode`
check, although the repository's own `test_force_mode.py`
(`test_no_retry_in_force_mode`) requires one that forces `retry_count = 0`.
Force-Private mode reaches this wrapper through
`_send_message_with_stop_check` → `_send_message_with_mode`. -/

/-- The task fields the send wrappers read. -/
structure SendTaskCfg where
  retryCount : Nat
  retryInterval : Nat
  forcePrivateMode : Bool
  voiceCallEnabled : Bool
  editMode : Bool
deriving DecidableEq

/-- The `for attempt in range(retry_count + 1)` loop of `_send_message`.
`outcome n` is the result of the `n`-th `_do_send_message` call; the
returned trace records plain retry sleeps and transport attempts. -/
def sendMessageLoop (retryInterval : Nat) (outcome : Nat → Bool) :
    Nat → Nat → List SendEff × Bool
| _, 0 => ([], false)
| attempt, fuel + 1 =>
  let pre := if attempt > 0 then [SendEff.sleepPlain retryInterval] else []
  let effs := pre ++ [SendEff.transportAttempt attempt]
  if outcome attempt then (effs, true)
  else
    let rest := sendMessageLoop retryInterval outcome (attempt + 1) fuel
    (effs ++ rest.1, rest.2)

/-- `TaskManager._send_message(task, target, account)`. -/
def sendMessage (cfg : SendTaskCfg) (outcome : Nat → Bool) : List SendEff × Bool :=
  sendMessageLoop cfg.retryInterval outcome 0 (cfg.retryCount + 1)

/-- `TaskManager._send_message_with_mode`: the voice-call path delegates to
`_send_message` after the call attempt, the edit path
(`_send_message_with_edit`) performs a single transport attempt, and the
normal path calls `_send_message` directly.  None of the branches consult
`force_private_mode`. -/
def sendMessageWithMode (cfg : SendTaskCfg) (outcome : Nat → Bool) :
    List SendEff × Bool :=
  if cfg.voiceCallEnabled then sendMessage cfg outcome
  else if cfg.editMode then ([SendEff.transportAttempt 0], outcome 0)
  else sendMessage cfg outcome

/-- `TaskManager._send_message_with_stop_check`: short-circuits to failure
without touching the transport when the stop signal is already set. -/
def sendMessageWithStopCheck (stopSet : Bool) (cfg : SendTaskCfg)
    (outcome : Nat → Bool) : List SendEff × Bool :=
  if stopSet then ([], false) else sendMessageWithMode cfg outcome

/-- Number of `_do_send_message` calls in a trace. -/
def countTransportAttempts (l : List SendEff) : Nat :=
  (l.filter (fun e => match e with
    | SendEff.transportAttempt _ => true
    | _ => false)).length

/-- Claim C4 evaluated at the failing input: a Force-Private send
(`force_private_mode = true`, `retry_count = 2`, `retry_interval = 5`)
whose transport fails every time performs three transport attempts with two
plain 5-second pauses — identical to the non-force trace — although the
claim (and `test_force_mode.py`) says a Force-Private send makes exactly
one transport attempt and never enters the retry-with-backoff path. -/
theorem c4_force_mode_send_goes_through_retry :
    sendMessageWithStopCheck false ⟨2, 5, true, false, false⟩ (fun _ => false) =
      ([SendEff.transportAttempt 0, SendEff.sleepPlain 5, SendEff.transportAttempt 1,
        SendEff.sleepPlain 5, SendEff.transportAttempt 2], false) ∧
    countTransportAttempts
      (sendMessageWithStopCheck false ⟨2, 5, true, false, false⟩ (fun _ => false)).1 = 3 ∧
    sendMessageWithStopCheck false ⟨2, 5, false, false, false⟩ (fun _ => false) =
      sendMessageWithStopCheck false ⟨2, 5, true, false, false⟩ (fun _ => false) ∧
    (3 : Nat) ≠ 1 := by
  decide

/-! ## Normal-mode account rotation: `TaskManager._process_batch_normal_mode`

For one target, the inner `while not success and attempts < max_attempts`
loop (with `max_attempts = len(account_pool)`) re-reads the candidate
account; an account at its daily limit is skipped with
`account_index += 1; attempts += 1; continue` — the limit check runs
*before* the daily-counter reset — then the daily counter is reset when the
account's last-used date is before today, and the send is attempted.  A
failed send advances `account_index` and `attempts`; a successful send
leaves `attempts` unchanged and exits the loop. -/

/-- The account fields the rotation loop reads: today's counter, the daily
limit, and whether `last_used` exists and falls before today. -/
structure PoolAcct where
  sentToday : Nat
  dailyLimit : Nat
  lastUsedBeforeToday : Bool
deriving DecidableEq

/-- Outcome of the rotation loop for one target: overall success, the final
`attempts` counter, the number of actual `_send_message_with_stop_check`
calls, the number of daily-limit skips, and the number of daily-counter
resets written to the accounts collection. -/
structure RotateResult where
  success : Bool
  attempts : Nat
  sends : Nat
  skips : Nat
  resets : Nat
deriving DecidableEq

/-- The `while not success and attempts < max_attempts` loop.  `fuel` is
`max_attempts - attempts`, which decreases by one with every `continue`
(both the skip branch and the failed-send branch increment `attempts`).
`sendOk n` is the outcome of the `n`-th actual send call. -/
def rotateLoop (sendOk : Nat → Bool) :
    List PoolAcct → Nat → Nat → Nat → Nat → Nat → Nat → RotateResult
| _, _, attempts, sends, skips, resets, 0 =>
  ⟨false, attempts, sends, skips, resets⟩
| pool, accIdx, attempts, sends, skips, resets, fuel + 1 =>
  match pool[accIdx % pool.length]? with
  | none => ⟨false, attempts, sends, skips, resets⟩
  | some a =>
    if a.dailyLimit ≤ a.sentToday then
      rotateLoop sendOk pool (accIdx + 1) (attempts + 1) sends (skips + 1) resets fuel
    else
      let pool' := if a.lastUsedBeforeToday
        then pool.set (accIdx % pool.length) { a with sentToday := 0 }
        else pool
      let resets' := if a.lastUsedBeforeToday then resets + 1 else resets
      if sendOk sends then ⟨true, attempts, sends + 1, skips, resets'⟩
      else rotateLoop sendOk pool' (accIdx + 1) (attempts + 1) (sends + 1) skips resets' fuel

/-- The per-target rotation of `_process_batch_normal_mode`:
`attempts = 0`, starting from the batch's current `account_index`. -/
def tryTargetRotation (pool : List PoolAcct) (startIdx : Nat) (sendOk : Nat → Bool) :
    RotateResult :=
  rotateLoop sendOk pool startIdx 0 0 0 0 pool.length

/-- Accounting invariant of the rotation loop, by induction on the fuel:
the final `attempts` counter grows by at most `fuel`; on overall failure
over a non-empty pool it grows by exactly `fuel`; sends plus skips track
`attempts` except that a final successful send is not counted in
`attempts`; and every daily-counter reset belongs to an iteration that went
on to an actual send. -/
theorem rotateLoop_accounting (sendOk : Nat → Bool) :
    ∀ fuel pool accIdx attempts sends skips resets,
      (rotateLoop sendOk pool accIdx attempts sends skips resets fuel).attempts ≤
        attempts + fuel ∧
      ((rotateLoop sendOk pool accIdx attempts sends skips resets fuel).success = false →
        pool ≠ [] →
        (rotateLoop sendOk pool accIdx attempts sends skips resets fuel).attempts =
          attempts + fuel) ∧
      ((rotateLoop sendOk pool accIdx attempts sends skips resets fuel).sends +
          (rotateLoop sendOk pool accIdx attempts sends skips resets fuel).skips +
          attempts =
        (rotateLoop sendOk pool accIdx attempts sends skips resets fuel).attempts +
          sends + skips +
          (if (rotateLoop sendOk pool accIdx attempts sends skips resets fuel).success
            then 1 else 0)) ∧
      ((rotateLoop sendOk pool accIdx attempts sends skips resets fuel).resets + sends ≤
        (rotateLoop sendOk pool accIdx attempts sends skips resets fuel).sends + resets) := by
  intro fuel
  induction fuel with
  | zero =>
    intro pool accIdx attempts sends skips resets
    simp [rotateLoop]
    omega
  | succ n ih =>
    intro pool accIdx attempts sends skips resets
    cases hget : pool[accIdx % pool.length]? with
    | none =>
      have hpool : pool = [] := by
        cases pool with
        | nil => rfl
        | cons x xs =>
          exfalso
          have hlt : accIdx % (x :: xs).length < (x :: xs).length :=
            Nat.mod_lt _ (by simp)
          rw [List.getElem?_eq_getElem hlt] at hget
          exact Option.some_ne_none _ hget
      subst hpool
      simp [rotateLoop, hget]
      omega
    | some a =>
      by_cases hlim : a.dailyLimit ≤ a.sentToday
      · have hrw : rotateLoop sendOk pool accIdx attempts sends skips resets (n + 1) =
            rotateLoop sendOk pool (accIdx + 1) (attempts + 1) sends (skips + 1) resets n := by
          simp [rotateLoop, hget, hlim]
        rw [hrw]
        obtain ⟨i1, i2, i3, i4⟩ := ih pool (accIdx + 1) (attempts + 1) sends (skips + 1) resets
        refine ⟨by omega, ?_, by omega, by omega⟩
        intro hs hp
        have := i2 hs hp
        omega
      · by_cases hok : sendOk sends = true
        · have hrw : rotateLoop sendOk pool accIdx attempts sends skips resets (n + 1) =
              ⟨true, attempts, sends + 1, skips,
                if a.lastUsedBeforeToday then resets + 1 else resets⟩ := by
            simp [rotateLoop, hget, hlim, hok]
          rw [hrw]
          refine ⟨by simp, by simp, by simp; omega, ?_⟩
          by_cases hl : a.lastUsedBeforeToday <;> simp [hl] <;> omega
        · have hok' : sendOk sends = false := by
            rcases Bool.eq_false_or_eq_true (sendOk sends) with h | h
            · exact absurd h hok
            · exact h
          by_cases hl : a.lastUsedBeforeToday
          · have hrw : rotateLoop sendOk pool accIdx attempts sends skips resets (n + 1) =
                rotateLoop sendOk
                  (pool.set (accIdx % pool.length) { a with sentToday := 0 })
                  (accIdx + 1) (attempts + 1) (sends + 1) skips (resets + 1) n := by
              simp [rotateLoop, hget, hlim, hok', hl]
            rw [hrw]
            obtain ⟨i1, i2, i3, i4⟩ := ih
              (pool.set (accIdx % pool.length) { a with sentToday := 0 })
              (accIdx + 1) (attempts + 1) (sends + 1) skips (resets + 1)
            have hpool' : pool.set (accIdx % pool.length) { a with sentToday := 0 } = [] ↔
                pool = [] := by
              simp [← List.length_eq_zero]
            refine ⟨by omega, ?_, by omega, by omega⟩
            intro hs hp
            have := i2 hs (fun hc => hp (hpool'.mp hc))
            omega
          · have hrw : rotateLoop sendOk pool accIdx attempts sends skips resets (n + 1) =
                rotateLoop sendOk pool (accIdx + 1) (attempts + 1) (sends + 1) skips resets n := by
              simp [rotateLoop, hget, hlim, hok', hl]
            rw [hrw]
            obtain ⟨i1, i2, i3, i4⟩ := ih pool (accIdx + 1) (attempts + 1) (sends + 1) skips resets
            refine ⟨by omega, ?_, by omega, by omega⟩
            intro hs hp
            have := i2 hs hp
            omega

/-- Claim C10 (amended): in the normal-mode rotation for one target, an
account at its daily limit is skipped, and the skip *does* consume one of
the target's `len(account_pool)` attempts (the budget counts skips and
failed sends alike; a final successful send consumes none); on overall
failure over a non-empty pool, the whole budget is consumed; and the daily
counter is reset only in iterations that proceed to an actual send attempt,
because the limit check runs before the reset — an account already at its
limit is never reset here. -/
theorem c10_rotation_budget_counts_skips (pool : List PoolAcct) (startIdx : Nat)
    (sendOk : Nat → Bool) :
    (tryTargetRotation pool startIdx sendOk).attempts ≤ pool.length ∧
    ((tryTargetRotation pool startIdx sendOk).success = false → pool ≠ [] →
      (tryTargetRotation pool startIdx sendOk).attempts = pool.length) ∧
    ((tryTargetRotation pool startIdx sendOk).sends +
        (tryTargetRotation pool startIdx sendOk).skips =
      (tryTargetRotation pool startIdx sendOk).attempts +
        (if (tryTargetRotation pool startIdx sendOk).success then 1 else 0)) ∧
    (tryTargetRotation pool startIdx sendOk).resets ≤
      (tryTargetRotation pool startIdx sendOk).sends := by
  obtain ⟨i1, i2, i3, i4⟩ :=
    rotateLoop_accounting sendOk pool.length pool startIdx 0 0 0 0
  simp only [tryTargetRotation]
  exact ⟨by omega, fun hs hp => by have := i2 hs hp; omega, by omega, by omega⟩

/-- Witness for C10's theorem: a two-account pool whose first account is at
its daily limit and whose second account fails the send. -/
theorem c10_rotation_budget_counts_skips_witness :
    (tryTargetRotation [⟨5, 5, false⟩, ⟨0, 10, false⟩] 0 (fun _ => false)).success = false ∧
    ([⟨5, 5, false⟩, ⟨0, 10, false⟩] : List PoolAcct) ≠ [] ∧
    (tryTargetRotation [⟨5, 5, false⟩, ⟨0, 10, false⟩] 0 (fun _ => false)).attempts = 2 :=
  ⟨by decide, by decide,
    (c10_rotation_budget_counts_skips [⟨5, 5, false⟩, ⟨0, 10, false⟩] 0
      (fun _ => false)).2.1 (by decide) (by decide)⟩

/-- Counterexample to claim C10 as stated, in two parts.  First, a pool of
two accounts — one at its daily limit, one that fails the send — exhausts
the budget of `len(account_pool) = 2` attempts after only one actual send:
the skip consumed an attempt, contradicting "the budget is consumed only by
actual send attempts".  Second, a single account at its limit whose
last-used date is before today is skipped without any daily-counter reset
(and without any send, even though the send would have succeeded),
contradicting "the account's daily counter is reset when its last-used date
is before today". -/
theorem c10_counterexample_skip_consumes_budget :
    tryTargetRotation [⟨5, 5, false⟩, ⟨0, 10, false⟩] 0 (fun _ => false) =
      ⟨false, 2, 1, 1, 0⟩ ∧
    tryTargetRotation [⟨5, 5, true⟩] 0 (fun _ => true) = ⟨false, 1, 0, 1, 0⟩ ∧
    (1 : Nat) ≠ 2 := by
  decide

/-! ## Force-Private mode: `TaskManager._process_account_force_mode`

`_execute_force_send_mode` computes the consecutive-failure threshold as
`task.ignore_bidirectional_limit if task.ignore_bidirectional_limit > 0
else DEFAULT_CONSECUTIVE_FAILURE_LIMIT` and runs one
`_process_account_force_mode` coroutine per account of the current batch
(via `asyncio.gather`, so each account's loop is independent).  Per
iteration that loop checks the stop signal, breaks at the daily limit,
resets the daily counter when `last_used` is before today, sends, and on
failure increments `consecutive_failures`; at the threshold it invokes
`check_account_real_status`: `'active'` resets the counter and continues,
`'limited'`/`'banned'` persists the status on the account and breaks out of
this account's loop, anything else logs a warning and continues.  The
inter-target interruptible sleep can also break the loop. -/

/-- `DEFAULT_CONSECUTIVE_FAILURE_LIMIT` (`bot.py` line 181). -/
def defaultConsecutiveFailureLimit : Nat := 30

/-- Threshold selection at the top of `_execute_force_send_mode`. -/
def consecutiveLimit (ignoreBidirectionalLimit : Nat) : Nat :=
  if 0 < ignoreBidirectionalLimit then ignoreBidirectionalLimit
  else defaultConsecutiveFailureLimit

/-- Environment of one account's force-mode loop, indexed by iteration:
the stop signal, the send outcomes, the oracle verdicts when consulted, and
whether the inter-target interruptible sleep reports interruption. -/
structure ForceEnv where
  stopAt : Nat → Bool
  sendOk : Nat → Bool
  oracleAt : Nat → ProbeStatus
  interruptAt : Nat → Bool

/-- The account document fields the loop reads and writes. -/
structure ForceAcct where
  sentToday : Nat
  dailyLimit : Nat
  lastUsedBeforeToday : Bool
  status : AccountStatus
deriving DecidableEq

/-- Why the account's loop ended. -/
inductive ForceStopReason
| targetsExhausted
| stopSignal
| dailyLimitReached
| oracleStopped
| sleepInterrupted
deriving DecidableEq

/-- Final state of one account's force-mode loop: targets iterated,
successful sends, failed sends, the consecutive-failure counter, the
account document, and the loop's stop reason. -/
structure ForceResult where
  processed : Nat
  sent : Nat
  failed : Nat
  failures : Nat
  acct : ForceAcct
  reason : ForceStopReason
deriving DecidableEq

/-- The `for idx, target in enumerate(available_targets)` loop of
`_process_account_force_mode`.  `remaining` counts targets left, `i` is the
iteration index, and the accumulators mirror the task counters. -/
def forceLoop (env : ForceEnv) (limit : Nat) :
    Nat → Nat → Nat → Nat → Nat → ForceAcct → ForceResult
| 0, i, sent, failed, failures, acct =>
  ⟨i, sent, failed, failures, acct, ForceStopReason.targetsExhausted⟩
| remaining + 1, i, sent, failed, failures, acct =>
  if env.stopAt i then ⟨i, sent, failed, failures, acct, ForceStopReason.stopSignal⟩
  else if acct.dailyLimit ≤ acct.sentToday then
    ⟨i, sent, failed, failures, acct, ForceStopReason.dailyLimitReached⟩
  else
    let acct1 := if acct.lastUsedBeforeToday then { acct with sentToday := 0 } else acct
    if env.sendOk i then
      let acct2 := { acct1 with
                     sentToday := acct1.sentToday + 1,
                     lastUsedBeforeToday := false }
      if env.interruptAt i then
        ⟨i + 1, sent + 1, failed, 0, acct2, ForceStopReason.sleepInterrupted⟩
      else forceLoop env limit remaining (i + 1) (sent + 1) failed 0 acct2
    else
      if limit ≤ failures + 1 then
        match env.oracleAt i with
        | ProbeStatus.active =>
          if env.interruptAt i then
            ⟨i + 1, sent, failed + 1, 0, acct1, ForceStopReason.sleepInterrupted⟩
          else forceLoop env limit remaining (i + 1) sent (failed + 1) 0 acct1
        | ProbeStatus.limited =>
          ⟨i + 1, sent, failed + 1, failures + 1,
            { acct1 with status := AccountStatus.limited },
            ForceStopReason.oracleStopped⟩
        | ProbeStatus.banned =>
          ⟨i + 1, sent, failed + 1, failures + 1,
            { acct1 with status := AccountStatus.banned },
            ForceStopReason.oracleStopped⟩
        | ProbeStatus.unknown =>
          if env.interruptAt i then
            ⟨i + 1, sent, failed + 1, failures + 1, acct1,
              ForceStopReason.sleepInterrupted⟩
          else forceLoop env limit remaining (i + 1) sent (failed + 1) (failures + 1) acct1
      else
        if env.interruptAt i then
          ⟨i + 1, sent, failed + 1, failures + 1, acct1,
            ForceStopReason.sleepInterrupted⟩
        else forceLoop env limit remaining (i + 1) sent (failed + 1) (failures + 1) acct1

/-- One account's `_process_account_force_mode` run over `numTargets`
available targets, starting with a zero consecutive-failure counter. -/
def processAccountForceMode (env : ForceEnv) (limit : Nat) (numTargets : Nat)
    (acct : ForceAcct) : ForceResult :=
  forceLoop env limit numTargets 0 0 0 0 acct

/-- When every send fails, the oracle consistently answers `'limited'` or
`'banned'`, and nothing else interrupts, the account's loop runs exactly
until the consecutive-failure counter reaches the threshold, persists the
oracle's verdict on the account, and stops. -/
theorem forceLoop_oracle_stops (env : ForceEnv) (limit : Nat) (acct : ForceAcct)
    (o : ProbeStatus) (st : AccountStatus)
    (hstop : ∀ i, env.stopAt i = false) (hsend : ∀ i, env.sendOk i = false)
    (hintr : ∀ i, env.interruptAt i = false)
    (hdl : acct.sentToday < acct.dailyLimit) (hlu : acct.lastUsedBeforeToday = false)
    (horc : ∀ i, env.oracleAt i = o)
    (hcase : o = ProbeStatus.banned ∧ st = AccountStatus.banned ∨
      o = ProbeStatus.limited ∧ st = AccountStatus.limited) :
    ∀ remaining i sent failed failures, failures < limit →
      limit - failures ≤ remaining →
      forceLoop env limit remaining i sent failed failures acct =
        ⟨i + (limit - failures), sent, failed + (limit - failures), limit,
          { acct with status := st }, ForceStopReason.oracleStopped⟩ := by
  have hnl : ¬ acct.dailyLimit ≤ acct.sentToday := by omega
  intro remaining
  induction remaining with
  | zero =>
    intro i sent failed failures h1 h2
    exfalso
    omega
  | succ n ih =>
    intro i sent failed failures h1 h2
    by_cases hth : limit ≤ failures + 1
    · have hfe : failures + 1 = limit := by omega
      have hlf : limit - failures = 1 := by omega
      rcases hcase with ⟨ho, hs⟩ | ⟨ho, hs⟩ <;> subst ho <;> subst hs <;>
        simp [forceLoop, hstop i, hsend i, hintr i, hnl, hlu, horc i, hth, hlf, hfe]
    · have h1' : failures + 1 < limit := by omega
      have h2' : limit - (failures + 1) ≤ n := by omega
      have e1 : i + (limit - failures) = (i + 1) + (limit - (failures + 1)) := by omega
      have e2 : failed + (limit - failures) = (failed + 1) + (limit - (failures + 1)) := by
        omega
      rw [e1, e2, ← ih (i + 1) sent (failed + 1) (failures + 1) h1' h2']
      simp [forceLoop, hstop i, hsend i, hintr i, hnl, hlu, horc i, hth]

/-- When every send fails, the oracle consistently answers `'active'`, and
nothing else interrupts, the account's loop treats every threshold hit as a
false alarm (counter reset to 0) and processes all targets, leaving the
account document untouched. -/
theorem forceLoop_active_runs_all (env : ForceEnv) (limit : Nat) (acct : ForceAcct)
    (hstop : ∀ i, env.stopAt i = false) (hsend : ∀ i, env.sendOk i = false)
    (hintr : ∀ i, env.interruptAt i = false)
    (hdl : acct.sentToday < acct.dailyLimit) (hlu : acct.lastUsedBeforeToday = false)
    (horc : ∀ i, env.oracleAt i = ProbeStatus.active) :
    ∀ remaining i sent failed failures, failures < limit →
      ∃ f, f < limit ∧
        forceLoop env limit remaining i sent failed failures acct =
          ⟨i + remaining, sent, failed + remaining, f, acct,
            ForceStopReason.targetsExhausted⟩ := by
  have hnl : ¬ acct.dailyLimit ≤ acct.sentToday := by omega
  intro remaining
  induction remaining with
  | zero =>
    intro i sent failed failures h1
    exact ⟨failures, h1, rfl⟩
  | succ n ih =>
    intro i sent failed failures h1
    by_cases hth : limit ≤ failures + 1
    · obtain ⟨f, hf, heq⟩ := ih (i + 1) sent (failed + 1) 0 (by omega)
      refine ⟨f, hf, ?_⟩
      have e1 : i + (n + 1) = (i + 1) + n := by omega
      have e2 : failed + (n + 1) = (failed + 1) + n := by omega
      rw [e1, e2, ← heq]
      simp [forceLoop, hstop i, hsend i, hintr i, hnl, hlu, horc i, hth]
    · obtain ⟨f, hf, heq⟩ := ih (i + 1) sent (failed + 1) (failures + 1) (by omega)
      refine ⟨f, hf, ?_⟩
      have e1 : i + (n + 1) = (i + 1) + n := by omega
      have e2 : failed + (n + 1) = (failed + 1) + n := by omega
      rw [e1, e2, ← heq]
      simp [forceLoop, hstop i, hsend i, hintr i, hnl, hlu, horc i, hth]

/-- When every send fails, the oracle consistently answers `'unknown'`, and
nothing else interrupts, the account's loop continues optimistically through
all targets, never stopping and never resetting the counter. -/
theorem forceLoop_unknown_runs_all (env : ForceEnv) (limit : Nat) (acct : ForceAcct)
    (hstop : ∀ i, env.stopAt i = false) (hsend : ∀ i, env.sendOk i = false)
    (hintr : ∀ i, env.interruptAt i = false)
    (hdl : acct.sentToday < acct.dailyLimit) (hlu : acct.lastUsedBeforeToday = false)
    (horc : ∀ i, env.oracleAt i = ProbeStatus.unknown) :
    ∀ remaining i sent failed failures,
      forceLoop env limit remaining i sent failed failures acct =
        ⟨i + remaining, sent, failed + remaining, failures + remaining, acct,
          ForceStopReason.targetsExhausted⟩ := by
  have hnl : ¬ acct.dailyLimit ≤ acct.sentToday := by omega
  intro remaining
  induction remaining with
  | zero =>
    intro i sent failed failures
    rfl
  | succ n ih =>
    intro i sent failed failures
    have e1 : i + (n + 1) = (i + 1) + n := by omega
    have e2 : failed + (n + 1) = (failed + 1) + n := by omega
    have e3 : failures + (n + 1) = (failures + 1) + n := by omega
    by_cases hth : limit ≤ failures + 1 <;>
    · rw [e1, e2, e3, ← ih (i + 1) sent (failed + 1) (failures + 1)]
      simp [forceLoop, hstop i, hsend i, hintr i, hnl, hlu, horc i, hth]

/-- Claim C6: in Force-Private mode the consecutive-failure threshold is
`task.ignore_bidirectional_limit` when positive, else the default of 30;
when an account's counter reaches the threshold the Account Health Oracle
is invoked: a `'banned'` or `'limited'` verdict persists that status on the
account and terminates exactly that account's loop (after processing as
many targets as the threshold; the remaining targets of its private view
are abandoned), an `'active'` verdict resets the counter to 0 so the loop
runs through all targets with the account untouched, and an `'unknown'`
verdict continues without stopping the account or resetting the counter. -/
theorem c6_force_mode_escalation :
    consecutiveLimit 0 = 30 ∧
    (∀ n, 0 < n → consecutiveLimit n = n) ∧
    (∀ env limit acct n,
      (∀ i, env.stopAt i = false) → (∀ i, env.sendOk i = false) →
      (∀ i, env.interruptAt i = false) →
      acct.sentToday < acct.dailyLimit → acct.lastUsedBeforeToday = false →
      0 < limit → limit ≤ n →
      ((∀ i, env.oracleAt i = ProbeStatus.banned) →
        processAccountForceMode env limit n acct =
          ⟨limit, 0, limit, limit, { acct with status := AccountStatus.banned },
            ForceStopReason.oracleStopped⟩) ∧
      ((∀ i, env.oracleAt i = ProbeStatus.limited) →
        processAccountForceMode env limit n acct =
          ⟨limit, 0, limit, limit, { acct with status := AccountStatus.limited },
            ForceStopReason.oracleStopped⟩) ∧
      ((∀ i, env.oracleAt i = ProbeStatus.active) →
        ∃ f, f < limit ∧
          processAccountForceMode env limit n acct =
            ⟨n, 0, n, f, acct, ForceStopReason.targetsExhausted⟩) ∧
      ((∀ i, env.oracleAt i = ProbeStatus.unknown) →
        processAccountForceMode env limit n acct =
          ⟨n, 0, n, n, acct, ForceStopReason.targetsExhausted⟩)) := by
  refine ⟨rfl, ?_, ?_⟩
  · intro n hn
    simp [consecutiveLimit, hn]
  · intro env limit acct n hstop hsend hintr hdl hlu hlim hn
    refine ⟨?_, ?_, ?_, ?_⟩
    · intro horc
      have := forceLoop_oracle_stops env limit acct ProbeStatus.banned
        AccountStatus.banned hstop hsend hintr hdl hlu horc (Or.inl ⟨rfl, rfl⟩)
        n 0 0 0 0 hlim (by omega)
      simpa [processAccountForceMode] using this
    · intro horc
      have := forceLoop_oracle_stops env limit acct ProbeStatus.limited
        AccountStatus.limited hstop hsend hintr hdl hlu horc (Or.inr ⟨rfl, rfl⟩)
        n 0 0 0 0 hlim (by omega)
      simpa [processAccountForceMode] using this
    · intro horc
      obtain ⟨f, hf, heq⟩ := forceLoop_active_runs_all env limit acct
        hstop hsend hintr hdl hlu horc n 0 0 0 0 hlim
      exact ⟨f, hf, by simpa [processAccountForceMode] using heq⟩
    · intro horc
      have := forceLoop_unknown_runs_all env limit acct
        hstop hsend hintr hdl hlu horc n 0 0 0 0
      simpa [processAccountForceMode] using this

/-- The constant environment used by the C6 witness: every send fails and
the oracle always answers `'banned'`. -/
def forceEnvBanned : ForceEnv :=
  ⟨fun _ => false, fun _ => false, fun _ => ProbeStatus.banned, fun _ => false⟩

/-- Witness for C6's theorem at a concrete input: threshold 2, three
available targets, a fresh account.  The loop stops after two failed
targets with the account persisted as banned. -/
theorem c6_force_mode_escalation_witness :
    processAccountForceMode forceEnvBanned 2 3 ⟨0, 10, false, AccountStatus.active⟩ =
      ⟨2, 0, 2, 2, ⟨0, 10, false, AccountStatus.banned⟩,
        ForceStopReason.oracleStopped⟩ :=
  (c6_force_mode_escalation.2.2 forceEnvBanned 2 ⟨0, 10, false, AccountStatus.active⟩ 3
    (fun _ => rfl) (fun _ => rfl) (fun _ => rfl) (by decide) rfl (by decide)
    (by decide)).1 (fun _ => rfl)

/-! ## Session acquisition under concurrency: `AccountManager.get_client`

asyncio runs coroutines cooperatively: code between two `await`s executes
atomically.  For one account id, the suspension points of `get_client`
(on the happy no-proxy path, both callers authorized) are: acquiring the
per-account `asyncio.Lock`, `client.connect()`, and
`client.is_user_authorized()`.  Crucially, in the source the
`async with self.client_locks[account_id_str]:` block ends immediately
after `account_doc = self.accounts_col.find_one(...)` — the code from
`if not account_doc:` on, including `TelegramClient(...)` construction,
`connect()`, and the `self.clients[account_id_str] = client` store, runs
*outside* the lock (the block under the `async with` is indented only two
statements deep), although the surrounding comments say the lock prevents
concurrent client creation.

The model below runs two coroutines over the shared per-account state
under an explicit schedule.  Sessions are numbered by creation order; a
created session stays connected for the duration of the run. -/

/-- Shared state for one account id: the `self.clients` cache entry, the
per-account lock, and a fresh-session counter naming each
`TelegramClient` object created. -/
structure GcShared where
  cachedClient : Option Nat
  lockHeld : Bool
  nextSession : Nat
deriving DecidableEq

/-- Program counter of one `get_client` caller, one value per atomic block
between suspension points. -/
inductive GcPc
| entry
| inLock
| connecting (sid : Nat)
| authCheck (sid : Nat)
| done (sid : Nat)
deriving DecidableEq

/-- One atomic block of `get_client` for one caller.
`entry`: the lock-free fast path (`self.clients` hit with a connected
client returns it; otherwise create/await the per-account lock — a held
lock leaves the caller waiting).  `inLock`: the body of the `async with`:
double-check the cache (a hit releases and returns it), otherwise read the
account document; the block ends here, releasing the lock, and the caller
proceeds — now unlocked — to construct a fresh `TelegramClient` and await
`connect()`.  `connecting`: `connect()` finished, `is_user_authorized()`
awaited next.  `authCheck`: authorization confirmed; the client is stored
into `self.clients` and returned. -/
def gcStep : GcShared → GcPc → GcShared × GcPc
| s, GcPc.entry =>
  match s.cachedClient with
  | some c => (s, GcPc.done c)
  | none =>
    if s.lockHeld then (s, GcPc.entry)
    else ({ s with lockHeld := true }, GcPc.inLock)
| s, GcPc.inLock =>
  match s.cachedClient with
  | some c => ({ s with lockHeld := false }, GcPc.done c)
  | none =>
    ({ s with lockHeld := false, nextSession := s.nextSession + 1 },
      GcPc.connecting s.nextSession)
| s, GcPc.connecting sid => (s, GcPc.authCheck sid)
| s, GcPc.authCheck sid => ({ s with cachedClient := some sid }, GcPc.done sid)
| s, GcPc.done sid => (s, GcPc.done sid)

/-- Run two `get_client` callers A and B for the same account id under a
schedule (`false` steps A, `true` steps B). -/
def runGc : GcShared → GcPc → GcPc → List Bool → GcShared × GcPc × GcPc
| s, pa, pb, [] => (s, pa, pb)
| s, pa, pb, c :: rest =>
  if c then
    let sb := gcStep s pb
    runGc sb.1 pa sb.2 rest
  else
    let sa := gcStep s pa
    runGc sa.1 sa.2 pb rest

/-- Claim C1 evaluated at the failing schedule: starting from an empty
cache, caller A acquires the lock, double-checks, reads the account
document and — having already left the `async with` block — suspends in
`connect()`; caller B then acquires the freed lock, also sees an empty
cache, and creates a second client.  Both callers finish: A returns
session 0, B returns session 1 — two distinct live sessions for the same
account id, refuting "the second caller receives the session created by
the first". -/
theorem c1_concurrent_get_client_two_live_sessions :
    runGc ⟨none, false, 0⟩ GcPc.entry GcPc.entry
        [false, false, true, true, false, false, true, true] =
      (⟨some 1, false, 2⟩, GcPc.done 0, GcPc.done 1) ∧
    GcPc.done (0 : Nat) ≠ GcPc.done 1 := by
  decide

end SxBot
